import Mathlib

/-!
Shallow embedding of the MatPredict feature-derivation engine and prediction
pipeline (backend/app/ml/features.py, backend/app/ml/predictor.py,
backend/app/api/predictions.py).

Conventions of the embedding:
* Python floats are modelled by `ℚ` (all arithmetic in the source on these
  paths is exact over rationals: sums, counts and divisions).
* SQLAlchemy rows become plain structures; the database session becomes an
  explicit `Db` record holding the relevant tables as lists.
* `None`-able columns become `Option`; Python truthiness on optional ints
  (`if season_id:`) is modelled by `truthy`.
* Query `ORDER BY date DESC LIMIT n` becomes an insertion sort on the list
  followed by `List.take n`.
-/

/-- A row of the `matches'` table (models.Match). Dates are day numbers. -/
structure MatchRow where
  id : Nat
  meet_id : Option Nat
  season_id : Nat
  date : Int
  weight_class_id : Nat
  wrestler1_id : Nat
  wrestler2_id : Nat
  wrestler1_score : Option Int
  wrestler2_score : Option Int
  winner_id : Nat
  result_type_id : Nat
  deriving DecidableEq, Repr

/-- A row of the `result_types` table (models.ResultType). -/
structure ResultTypeRow where
  id : Nat
  code : String
  deriving DecidableEq, Repr

/-- A row of the `seasons` table (models.Season). -/
structure SeasonRow where
  id : Nat
  start_year : Int
  deriving DecidableEq, Repr

/-- A row of the `match_stats` table (models.MatchStats). -/
structure MatchStatsRow where
  match_id : Nat
  duration_seconds : Option Int
  deriving DecidableEq, Repr

/-- The database tables the feature engine reads. -/
structure Db where
  matches' : List MatchRow
  result_types : List ResultTypeRow
  seasons : List SeasonRow
  match_stats : List MatchStatsRow
  deriving DecidableEq, Repr

/-- Python truthiness of an optional integer (`if season_id:`). -/
def truthy : Option Nat → Bool
  | none => false
  | some n => n ≠ 0

/-- Mean of a list of rationals; `np.mean(xs) if xs else 0.0`. -/
def listMean (l : List ℚ) : ℚ :=
  if l = [] then 0 else l.sum / l.length

/-- Whether the wrestler appears in the match (the `or_` filter used by
every query in features.py). -/
def participates (wid : Nat) (m : MatchRow) : Bool :=
  m.wrestler1_id = wid ∨ m.wrestler2_id = wid

/-- features.py `calculate_win_rate`. -/
def calculate_win_rate (matches' : List MatchRow) (wid : Nat) : ℚ :=
  if matches' = [] then 0
  else (matches'.countP (fun m => m.winner_id = wid) : ℚ) / matches'.length

/-- The entry `calculate_avg_point_diff` appends for one match: the signed
point differential when both scores are present, nothing otherwise. -/
def diffVal (wid : Nat) (m : MatchRow) : Option Int :=
  match m.wrestler1_score, m.wrestler2_score with
  | some s1, some s2 =>
      if m.wrestler1_id = wid then some (s1 - s2) else some (s2 - s1)
  | _, _ => none

/-- The entry `calculate_avg_points_scored` appends for one match. -/
def scoredVal (wid : Nat) (m : MatchRow) : Option Int :=
  match m.wrestler1_score, m.wrestler2_score with
  | some s1, some s2 =>
      if m.wrestler1_id = wid then some s1 else some s2
  | _, _ => none

/-- The entry `calculate_avg_points_allowed` appends for one match. -/
def allowedVal (wid : Nat) (m : MatchRow) : Option Int :=
  match m.wrestler1_score, m.wrestler2_score with
  | some s1, some s2 =>
      if m.wrestler1_id = wid then some s2 else some s1
  | _, _ => none

/-- The point differentials collected by `calculate_avg_point_diff`:
one entry per match with both scores present. -/
def diffVals (matches' : List MatchRow) (wid : Nat) : List Int :=
  matches'.filterMap (diffVal wid)

/-- The points-scored values collected by `calculate_avg_points_scored`. -/
def scoredVals (matches' : List MatchRow) (wid : Nat) : List Int :=
  matches'.filterMap (scoredVal wid)

/-- The points-allowed values collected by `calculate_avg_points_allowed`. -/
def allowedVals (matches' : List MatchRow) (wid : Nat) : List Int :=
  matches'.filterMap (allowedVal wid)

/-- features.py `calculate_avg_point_diff`. -/
def calculate_avg_point_diff (matches' : List MatchRow) (wid : Nat) : ℚ :=
  if matches' = [] then 0
  else listMean ((diffVals matches' wid).map (Int.cast))

/-- features.py `calculate_avg_points_scored`. -/
def calculate_avg_points_scored (matches' : List MatchRow) (wid : Nat) : ℚ :=
  if matches' = [] then 0
  else listMean ((scoredVals matches' wid).map (Int.cast))

/-- features.py `calculate_avg_points_allowed`. -/
def calculate_avg_points_allowed (matches' : List MatchRow) (wid : Nat) : ℚ :=
  if matches' = [] then 0
  else listMean ((allowedVals matches' wid).map (Int.cast))

/-- The sub-list of matches' with both scores present (the records the
scoring aggregates actually use). -/
def fullyScored (matches' : List MatchRow) : List MatchRow :=
  matches'.filter fun m => m.wrestler1_score.isSome && m.wrestler2_score.isSome

/-- `result_type_map.get(m.result_type_id, '')`: the code of a result-type id,
defaulting to the empty string when the id is unknown. -/
def resultCode (db : Db) (rtid : Nat) : String :=
  match db.result_types.find? (fun rt => rt.id = rtid) with
  | some rt => rt.code
  | none => ""

/-- The pin codes tested by `get_result_type_rates`. -/
def pinCodes : List String := ["PIN", "FALL"]

/-- The technical-fall codes tested by `get_result_type_rates`. -/
def techFallCodes : List String := ["TF", "TECH"]

/-- The major-decision codes tested by `get_result_type_rates`. -/
def majorDecisionCodes : List String := ["MD", "MAJ"]

/-- The bonus-win codes tested by `calculate_bonus_win_rate`. -/
def bonusCodes : List String := ["PIN", "FALL", "TF", "TECH", "MD", "MAJ"]

/-- The wins of a wrestler within a match list. -/
def winsOf (matches' : List MatchRow) (wid : Nat) : List MatchRow :=
  matches'.filter fun m => m.winner_id = wid

/-- The per-type rates of features.py `get_result_type_rates`. -/
structure ResultTypeRates where
  pin_rate : ℚ
  tech_fall_rate : ℚ
  major_decision_rate : ℚ
  deriving DecidableEq, Repr

/-- features.py `get_result_type_rates`. -/
def get_result_type_rates (db : Db) (matches' : List MatchRow) (wid : Nat) :
    ResultTypeRates :=
  if matches' = [] then ⟨0, 0, 0⟩
  else
    let wins := winsOf matches' wid
    if wins = [] then ⟨0, 0, 0⟩
    else
      let total_wins : ℚ := wins.length
      let pins := wins.countP fun m => pinCodes.contains (resultCode db m.result_type_id).toUpper
      let tech_falls := wins.countP fun m => techFallCodes.contains (resultCode db m.result_type_id).toUpper
      let major_decisions := wins.countP fun m => majorDecisionCodes.contains (resultCode db m.result_type_id).toUpper
      ⟨pins / total_wins, tech_falls / total_wins, major_decisions / total_wins⟩

/-- features.py `calculate_bonus_win_rate`. -/
def calculate_bonus_win_rate (db : Db) (matches' : List MatchRow) (wid : Nat) : ℚ :=
  if matches' = [] then 0
  else
    let wins := winsOf matches' wid
    if wins = [] then 0
    else
      let bonus_wins := wins.countP fun m => bonusCodes.contains (resultCode db m.result_type_id).toUpper
      (bonus_wins : ℚ) / wins.length

/-- features.py `calculate_close_match_win_rate`. -/
def calculate_close_match_win_rate (matches' : List MatchRow) (wid : Nat) : ℚ :=
  if matches' = [] then 0
  else
    let close_matches := matches'.filter fun m =>
      match m.wrestler1_score, m.wrestler2_score with
      | some s1, some s2 => (s1 - s2).natAbs ≤ 3
      | _, _ => false
    if close_matches = [] then 0
    else (close_matches.countP fun m => m.winner_id = wid : ℚ) / close_matches.length

/-- features.py `calculate_overtime_rate`: rate of matches whose recorded
duration exceeds 420 seconds, over the match-stats rows found. -/
def calculate_overtime_rate (db : Db) (matches' : List MatchRow) : ℚ :=
  if matches' = [] then 0
  else
    let ids := matches'.map (fun m => m.id)
    let stats := db.match_stats.filter fun ms => ids.contains ms.match_id
    if stats = [] then 0
    else
      let overtime := stats.countP fun ms =>
        match ms.duration_seconds with
        | some d => d > 420
        | none => false
      (overtime : ℚ) / stats.length

/-- features.py `calculate_avg_duration`. The inner comprehension keeps only
truthy durations (so a recorded duration of 0 is dropped as well). -/
def calculate_avg_duration (db : Db) (matches' : List MatchRow) : ℚ :=
  if matches' = [] then 0
  else
    let ids := matches'.map (fun m => m.id)
    let stats := db.match_stats.filter fun ms =>
      ids.contains ms.match_id ∧ ms.duration_seconds.isSome
    if stats = [] then 0
    else
      let durations := stats.filterMap fun ms =>
        match ms.duration_seconds with
        | some d => if d ≠ 0 then some d else none
        | none => none
      listMean (durations.map (Int.cast))

/-- Insert a match into a list sorted by date descending (used to model
`ORDER BY date DESC`). -/
def insertByDateDesc (m : MatchRow) : List MatchRow → List MatchRow
  | [] => [m]
  | x :: xs => if x.date < m.date then m :: x :: xs else x :: insertByDateDesc m xs

/-- Sort a match list by date descending. -/
def sortByDateDesc : List MatchRow → List MatchRow
  | [] => []
  | m :: rest => insertByDateDesc m (sortByDateDesc rest)

/-- The wrestler's matches, optionally restricted to a season (the base
query shared by most feature functions; `if season_id:` is truthiness). -/
def wrestlerMatches (db : Db) (wid : Nat) (season_id : Option Nat) : List MatchRow :=
  let base := db.matches'.filter (participates wid)
  if truthy season_id then base.filter (fun m => some m.season_id = season_id) else base

/-- features.py `get_recent_matches`: the n most recent matches. -/
def get_recent_matches (db : Db) (wid : Nat) (season_id : Option Nat) (n : Nat) :
    List MatchRow :=
  (sortByDateDesc (wrestlerMatches db wid season_id)).take n

/-- The ≤ 20 most recent matches scanned by `calculate_streak`. -/
def streakMatches (db : Db) (wid : Nat) (season_id : Option Nat) : List MatchRow :=
  (sortByDateDesc (wrestlerMatches db wid season_id)).take 20

/-- The length of the initial run of matches whose outcome for `wid`
(win or loss) equals `b`; the body of `calculate_streak`'s loop after its
first iteration. -/
def runLength (wid : Nat) (b : Bool) : List MatchRow → Nat
  | [] => 0
  | m :: rest => if decide (m.winner_id = wid) = b then runLength wid b rest + 1 else 0

/-- features.py `calculate_streak`: walks the ≤ 20 most recent matches oldest
first (`reversed(matches)`), counting consecutive same-outcome results from
the oldest and stopping at the first flip; sign follows that first outcome. -/
def calculate_streak (db : Db) (wid : Nat) (season_id : Option Nat) : Int :=
  match (streakMatches db wid season_id).reverse with
  | [] => 0
  | m0 :: rest =>
    let b := decide (m0.winner_id = wid)
    let s : Int := (1 + runLength wid b rest : Nat)
    if b then s else -s

/-- features.py `get_h2h_stats`:
`(total_matches, wrestler1_wins, wrestler2_wins)`. -/
def get_h2h_stats (db : Db) (w1 w2 : Nat) : Nat × Nat × Nat :=
  let ms := db.matches'.filter fun m =>
    (m.wrestler1_id = w1 ∧ m.wrestler2_id = w2) ∨
    (m.wrestler1_id = w2 ∧ m.wrestler2_id = w1)
  (ms.length, ms.countP (fun m => m.winner_id = w1), ms.countP (fun m => m.winner_id = w2))

/-- The head-to-head win rate computed inside
`compute_features_for_prediction`: `wins_a / total` with default 0.5. -/
def h2hWinRate (db : Db) (w1 w2 : Nat) : ℚ :=
  let s := get_h2h_stats db w1 w2
  if s.1 > 0 then (s.2.1 : ℚ) / s.1 else 1 / 2

/-- Result of features.py `get_career_stats`. -/
structure CareerStats where
  career_matches : Nat
  career_wins : Nat
  career_losses : Nat
  deriving DecidableEq, Repr

/-- features.py `get_career_stats`. -/
def get_career_stats (db : Db) (wid : Nat) (season_id : Option Nat) : CareerStats :=
  let all := wrestlerMatches db wid season_id
  if all = [] then ⟨0, 0, 0⟩
  else
    let wins := all.countP fun m => m.winner_id = wid
    ⟨all.length, wins, all.length - wins⟩

/-- Result of features.py `get_season_stats`. -/
structure SeasonStats where
  season_matches : Nat
  season_wins : Nat
  season_win_rate : ℚ
  deriving DecidableEq, Repr

/-- features.py `get_season_stats` (season filter always applied). -/
def get_season_stats (db : Db) (wid : Nat) (season_id : Nat) : SeasonStats :=
  let ms := db.matches'.filter fun m =>
    participates wid m ∧ m.season_id = season_id
  if ms = [] then ⟨0, 0, 0⟩
  else
    let wins := ms.countP fun m => m.winner_id = wid
    ⟨ms.length, wins, (wins : ℚ) / ms.length⟩

/-- features.py `get_previous_season_win_rate`: looks up the season whose
start year is one less than the current season's; 0.5 when either season
row is missing. -/
def get_previous_season_win_rate (db : Db) (wid : Nat) (current_season_id : Nat) : ℚ :=
  match db.seasons.find? (fun s => s.id = current_season_id) with
  | none => 1 / 2
  | some cur =>
    match db.seasons.find? (fun s => s.start_year = cur.start_year - 1) with
    | none => 1 / 2
    | some prev => (get_season_stats db wid prev.id).season_win_rate

/-- Result of features.py `get_dual_tournament_stats`. -/
structure DualTournamentStats where
  dual_meet_wins : Nat
  dual_meet_matches : Nat
  dual_meet_win_rate : ℚ
  tournament_wins : Nat
  tournament_matches : Nat
  tournament_win_rate : ℚ
  deriving DecidableEq, Repr

/-- The dual-meet partition used by `get_dual_tournament_stats`
(matches carrying a meet id). -/
def dualPartition (db : Db) (wid : Nat) (season_id : Option Nat) : List MatchRow :=
  (wrestlerMatches db wid season_id).filter fun m => m.meet_id.isSome

/-- The tournament partition used by `get_dual_tournament_stats`
(matches with no meet id). -/
def tournamentPartition (db : Db) (wid : Nat) (season_id : Option Nat) : List MatchRow :=
  (wrestlerMatches db wid season_id).filter fun m => m.meet_id.isNone

/-- features.py `get_dual_tournament_stats`. -/
def get_dual_tournament_stats (db : Db) (wid : Nat) (season_id : Option Nat) :
    DualTournamentStats :=
  let all := wrestlerMatches db wid season_id
  if all = [] then ⟨0, 0, 1 / 2, 0, 0, 1 / 2⟩
  else
    let dual := dualPartition db wid season_id
    let tournament := tournamentPartition db wid season_id
    let dual_wins := dual.countP fun m => m.winner_id = wid
    let tournament_wins := tournament.countP fun m => m.winner_id = wid
    ⟨dual_wins, dual.length,
     if dual ≠ [] then (dual_wins : ℚ) / dual.length else 1 / 2,
     tournament_wins, tournament.length,
     if tournament ≠ [] then (tournament_wins : ℚ) / tournament.length else 1 / 2⟩

/-- Result of features.py `get_weight_class_stats`. -/
structure WeightClassStats where
  weight_class_matches : Nat
  weight_class_wins : Nat
  weight_class_win_rate : ℚ
  deriving DecidableEq, Repr

/-- The matches considered by `get_weight_class_stats`. -/
def weightClassMatches (db : Db) (wid wcid : Nat) (season_id : Option Nat) :
    List MatchRow :=
  (wrestlerMatches db wid season_id).filter fun m => m.weight_class_id = wcid

/-- features.py `get_weight_class_stats`. -/
def get_weight_class_stats (db : Db) (wid wcid : Nat) (season_id : Option Nat) :
    WeightClassStats :=
  let ms := weightClassMatches db wid wcid season_id
  if ms = [] then ⟨0, 0, 1 / 2⟩
  else
    let wins := ms.countP fun m => m.winner_id = wid
    ⟨ms.length, wins, (wins : ℚ) / ms.length⟩

/-- A reference timestamp: its day number and calendar year. -/
structure RefDate where
  day : Int
  year : Int
  deriving DecidableEq, Repr

/-- features.py `calculate_days_since_last_match`. -/
def calculate_days_since_last_match (db : Db) (wid : Nat) (ref : RefDate) : Int :=
  let prior := sortByDateDesc (db.matches'.filter fun m =>
    participates wid m ∧ m.date < ref.day)
  match prior.head? with
  | none => 0
  | some m => ref.day - m.date

/-- features.py `calculate_matches_per_week` with its default 30-day window. -/
def calculate_matches_per_week (db : Db) (wid : Nat) (ref : RefDate) : ℚ :=
  let cnt := db.matches'.countP fun m =>
    participates wid m ∧ ref.day - 30 ≤ m.date ∧ m.date < ref.day
  (cnt : ℚ) * 7 / 30

/-- A Python feature dict: an association list from feature name to value
(keys are unique in every dict the source builds). -/
def FeatureMap : Type := List (String × ℚ)

/-- Dict lookup. -/
def FeatureMap.lookup (fs : FeatureMap) (k : String) : Option ℚ :=
  List.lookup k fs

/-- Dict indexing `fs[k]` (every use in the source is on a present key). -/
def FeatureMap.at (fs : FeatureMap) (k : String) : ℚ :=
  (fs.lookup k).getD 0

/-- features.py `compute_wrestler_features`: the flat single-wrestler
feature dict, in the dict-literal's key order. -/
def compute_wrestler_features (db : Db) (wid : Nat)
    (season_id weight_class_id : Option Nat) (ref : RefDate) : FeatureMap :=
  let matches_3 := get_recent_matches db wid season_id 3
  let matches_5 := get_recent_matches db wid season_id 5
  let matches_10 := get_recent_matches db wid season_id 10
  let matches_15 := get_recent_matches db wid season_id 15
  let career_stats := get_career_stats db wid season_id
  let season_stats :=
    match season_id with
    | some sid => if sid ≠ 0 then get_season_stats db wid sid else ⟨0, 0, 0⟩
    | none => ⟨0, 0, 0⟩
  let prev_year_win_rate :=
    match season_id with
    | some sid => if sid ≠ 0 then get_previous_season_win_rate db wid sid else 1 / 2
    | none => 1 / 2
  let avg_scored_3 := calculate_avg_points_scored matches_3 wid
  let avg_allowed_3 := calculate_avg_points_allowed matches_3 wid
  let avg_scored_5 := calculate_avg_points_scored matches_5 wid
  let avg_allowed_5 := calculate_avg_points_allowed matches_5 wid
  let avg_scored_10 := calculate_avg_points_scored matches_10 wid
  let avg_allowed_10 := calculate_avg_points_allowed matches_10 wid
  let dual_tournament_stats := get_dual_tournament_stats db wid season_id
  let wc_stats :=
    match weight_class_id with
    | some wcid => if wcid ≠ 0 then get_weight_class_stats db wid wcid season_id
                   else ⟨0, 0, 1 / 2⟩
    | none => ⟨0, 0, 1 / 2⟩
  [("career_wins", (career_stats.career_wins : ℚ)),
   ("career_losses", (career_stats.career_losses : ℚ)),
   ("career_matches", (career_stats.career_matches : ℚ)),
   ("season_wins", (season_stats.season_wins : ℚ)),
   ("season_matches", (season_stats.season_matches : ℚ)),
   ("season_win_rate", season_stats.season_win_rate),
   ("prev_yearly_win_rate", prev_year_win_rate),
   ("experience", (career_stats.career_matches : ℚ)),
   ("win_rate_last_3", calculate_win_rate matches_3 wid),
   ("win_rate_last_5", calculate_win_rate matches_5 wid),
   ("win_rate_last_10", calculate_win_rate matches_10 wid),
   ("win_rate_last_15", calculate_win_rate matches_15 wid),
   ("streak", (calculate_streak db wid season_id : ℚ)),
   ("bonus_win_rate_last_5", calculate_bonus_win_rate db matches_5 wid),
   ("bonus_win_rate_last_10", calculate_bonus_win_rate db matches_10 wid),
   ("close_match_win_rate_last_5", calculate_close_match_win_rate matches_5 wid),
   ("close_match_win_rate_last_10", calculate_close_match_win_rate matches_10 wid),
   ("avg_points_scored_last_3", avg_scored_3),
   ("avg_points_allowed_last_3", avg_allowed_3),
   ("avg_point_differential_last_3", avg_scored_3 - avg_allowed_3),
   ("avg_points_scored_last_5", avg_scored_5),
   ("avg_points_allowed_last_5", avg_allowed_5),
   ("avg_point_differential_last_5", avg_scored_5 - avg_allowed_5),
   ("avg_points_scored_last_10", avg_scored_10),
   ("avg_points_allowed_last_10", avg_allowed_10),
   ("avg_point_differential_last_10", avg_scored_10 - avg_allowed_10),
   ("overtime_rate_last_5", calculate_overtime_rate db matches_5),
   ("overtime_rate_last_10", calculate_overtime_rate db matches_10),
   ("avg_duration_last_5", calculate_avg_duration db matches_5),
   ("avg_duration_last_10", calculate_avg_duration db matches_10),
   ("dual_meet_wins", (dual_tournament_stats.dual_meet_wins : ℚ)),
   ("dual_meet_matches", (dual_tournament_stats.dual_meet_matches : ℚ)),
   ("dual_meet_win_rate", dual_tournament_stats.dual_meet_win_rate),
   ("tournament_wins", (dual_tournament_stats.tournament_wins : ℚ)),
   ("tournament_matches", (dual_tournament_stats.tournament_matches : ℚ)),
   ("tournament_win_rate", dual_tournament_stats.tournament_win_rate),
   ("weight_class_matches", (wc_stats.weight_class_matches : ℚ)),
   ("weight_class_wins", (wc_stats.weight_class_wins : ℚ)),
   ("weight_class_win_rate", wc_stats.weight_class_win_rate),
   ("days_since_last_match", (calculate_days_since_last_match db wid ref : ℚ)),
   ("matches_per_week_last_30_days", calculate_matches_per_week db wid ref),
   ("year", (ref.year : ℚ))]

/-- features.py `compute_features_for_prediction`: both wrestlers' dicts
side-prefixed, head-to-head entries, and the explicit differentials. -/
def compute_features_for_prediction (db : Db) (w1 w2 : Nat)
    (season_id weight_class_id : Option Nat) (ref : RefDate) : FeatureMap :=
  let w1_features := compute_wrestler_features db w1 season_id weight_class_id ref
  let w2_features := compute_wrestler_features db w2 season_id weight_class_id ref
  let h2h := get_h2h_stats db w1 w2
  w1_features.map (fun p => ("w1_" ++ p.1, p.2)) ++
  w2_features.map (fun p => ("w2_" ++ p.1, p.2)) ++
  [("h2h_matches", (h2h.1 : ℚ)),
   ("h2h_win_rate", h2hWinRate db w1 w2),
   ("win_rate_diff_5",
      w1_features.at ("win_rate_last_5") - w2_features.at ("win_rate_last_5")),
   ("win_rate_diff_10",
      w1_features.at ("win_rate_last_10") - w2_features.at ("win_rate_last_10")),
   ("point_diff_last_5",
      w1_features.at ("avg_point_differential_last_5") -
        w2_features.at ("avg_point_differential_last_5")),
   ("experience_diff", w1_features.at ("experience") - w2_features.at ("experience")),
   ("rest_diff",
      w1_features.at ("days_since_last_match") -
        w2_features.at ("days_since_last_match"))]

/-- predictor.py `WrestlingPredictor.feature_names`: the fixed model
contract of 42 column names. -/
def feature_names : List String :=
  ["career_wins", "career_losses", "career_matches", "season_wins",
   "season_matches", "season_win_rate", "prev_yearly_win_rate", "experience",
   "win_rate_last_3", "win_rate_last_5", "win_rate_last_10", "win_rate_last_15",
   "streak", "bonus_win_rate_last_5", "bonus_win_rate_last_10",
   "close_match_win_rate_last_5", "close_match_win_rate_last_10",
   "avg_points_scored_last_3", "avg_points_allowed_last_3",
   "avg_point_differential_last_3", "avg_points_scored_last_5",
   "avg_points_allowed_last_5", "avg_point_differential_last_5",
   "avg_points_scored_last_10", "avg_points_allowed_last_10",
   "avg_point_differential_last_10", "overtime_rate_last_5",
   "overtime_rate_last_10", "avg_duration_last_5", "avg_duration_last_10",
   "dual_meet_wins", "dual_meet_matches", "dual_meet_win_rate",
   "tournament_wins", "tournament_matches", "tournament_win_rate",
   "weight_class_matches", "weight_class_wins", "weight_class_win_rate",
   "days_since_last_match", "matches_per_week_last_30_days", "year"]

/-- The loop of `WrestlingPredictor.prepare_features`: collect the value of
each contract name in order, failing on the first name absent from the
feature dict with `ValueError(f"Missing feature: {name}")`. -/
def bindFeatures : List String → FeatureMap → Except String (List ℚ)
  | [], _ => .ok []
  | n :: rest, fs =>
    match fs.lookup n with
    | none => .error ("Missing feature: " ++ n)
    | some v =>
      match bindFeatures rest fs with
      | .error e => .error e
      | .ok vs => .ok (v :: vs)

/-- predictor.py `WrestlingPredictor.prepare_features`. -/
def prepare_features (fs : FeatureMap) : Except String (List ℚ) :=
  bindFeatures feature_names fs

/-- The opaque trained model: it exposes either `predict_proba` (a
probability per class, class 0 then class 1) or only `predict` (a scalar). -/
inductive Model where
  | proba (f : List ℚ → ℚ × ℚ)
  | point (f : List ℚ → ℚ)

/-- The body of predictor.py `WrestlingPredictor.predict` after binding:
class index 1 → wrestler 1, class index 0 → wrestler 2; scalar-only models
give `(p, 1 - p)`. -/
def predictPair (m : Model) (x : List ℚ) : ℚ × ℚ :=
  match m with
  | .proba f => ((f x).2, (f x).1)
  | .point f => (f x, 1 - f x)

/-- predictor.py `WrestlingPredictor.predict`: bind the vector, then
normalize model output into `(wrestler1_prob, wrestler2_prob)`. -/
def predict (m : Model) (fs : FeatureMap) : Except String (ℚ × ℚ) :=
  match prepare_features fs with
  | .error e => .error e
  | .ok x => .ok (predictPair m x)

/-- predictions.py `predict_match` line 61: the feature dict the endpoint
hands to `predictor.predict` is wrestler 1's single-wrestler dict
(`w1_features`), computed with the request's season and weight class. -/
def predictMatchBoundFeatures (db : Db) (w1 w2 : Nat)
    (season_id weight_class_id : Option Nat) (ref : RefDate) : FeatureMap :=
  compute_wrestler_features db w1 season_id weight_class_id ref

/-- predictions.py `predict_match` line 64: the predicted winner. -/
def predictedWinnerId (w1 w2 : Nat) (p1 p2 : ℚ) : Nat :=
  if p1 > p2 then w1 else w2

/-- predictions.py `predict_match` line 65: the reported confidence. -/
def predictionConfidence (p1 p2 : ℚ) : ℚ :=
  max p1 p2

/-- Build a match row with fixed meet, season, weight class and result type. -/
def mkMatch (id : Nat) (date : Int) (w1 w2 : Nat)
    (s1 s2 : Option Int) (winner : Nat) : MatchRow :=
  ⟨id, none, 1, date, 1, w1, w2, s1, s2, winner, 1⟩

/-- The spec's scoring example: (10,5,win), (None,None,win), (8,6,win). -/
def exC5 : List MatchRow :=
  [mkMatch 1 1 1 2 (some 10) (some 5) 1,
   mkMatch 2 2 1 2 none none 1,
   mkMatch 3 3 1 2 (some 8) (some 6) 1]

/-- A one-element all-missing-score match list. -/
def exAllMissing : List MatchRow :=
  [mkMatch 1 1 1 2 none none 1]

/-- Older match: wrestler 1 beat wrestler 2 on day 1. -/
def m1C2 : MatchRow := mkMatch 1 1 1 2 (some 7) (some 2) 1

/-- Newer match: wrestler 2 beat wrestler 1 on day 2. -/
def m2C2 : MatchRow := mkMatch 2 2 1 2 (some 3) (some 8) 2

/-- A database where wrestler 1 won the older match and lost the newer one. -/
def dbC2 : Db := ⟨[m1C2, m2C2], [], [], []⟩

/-- Older match of the loss-side example: wrestler 1 lost to wrestler 2 on
day 1. -/
def m1C2L : MatchRow := mkMatch 1 1 1 2 (some 2) (some 7) 2

/-- Newer match of the loss-side example: wrestler 1 beat wrestler 2 on
day 2. -/
def m2C2L : MatchRow := mkMatch 2 2 1 2 (some 8) (some 3) 1

/-- A database where wrestler 1 lost the older match and won the newer
one. -/
def dbC2L : Db := ⟨[m1C2L, m2C2L], [], [], []⟩

/-- An empty database. -/
def dbEmpty : Db := ⟨[], [], [], []⟩

/-- A fixed reference timestamp. -/
def refEx : RefDate := ⟨0, 2024⟩

/-- A feature dict carrying every contract name (each bound to 0). -/
def exampleFullFeatureMap : FeatureMap :=
  feature_names.map fun n => (n, (0 : ℚ))

/-- A feature dict missing most contract names. -/
def exampleMissingFeatureMap : FeatureMap :=
  [("career_wins", 1)]

/-! ## Helper lemmas -/

/-- A match contributes a scored value iff it contributes an allowed value. -/
theorem length_scoredVals_eq_allowed (l : List MatchRow) (w : Nat) :
    (scoredVals l w).length = (allowedVals l w).length := by
  induction l with
  | nil => rfl
  | cons m t ih =>
    simp only [scoredVals, allowedVals, List.filterMap_cons] at *
    rcases h1 : m.wrestler1_score with _ | s1
    · simp [scoredVal, allowedVal, h1, ih]
    rcases h2 : m.wrestler2_score with _ | s2
    · simp [scoredVal, allowedVal, h1, h2, ih]
    by_cases hw : m.wrestler1_id = w <;>
      simp [scoredVal, allowedVal, h1, h2, hw, ih]

/-- A match contributes a differential value iff it contributes a scored
value. -/
theorem length_diffVals_eq_scored (l : List MatchRow) (w : Nat) :
    (diffVals l w).length = (scoredVals l w).length := by
  induction l with
  | nil => rfl
  | cons m t ih =>
    simp only [diffVals, scoredVals, List.filterMap_cons] at *
    rcases h1 : m.wrestler1_score with _ | s1
    · simp [scoredVal, diffVal, h1, ih]
    rcases h2 : m.wrestler2_score with _ | s2
    · simp [scoredVal, diffVal, h1, h2, ih]
    by_cases hw : m.wrestler1_id = w <;>
      simp [scoredVal, diffVal, h1, h2, hw, ih]

/-- Each collected differential is the scored value minus the allowed value,
so the sums agree. -/
theorem sum_diffVals (l : List MatchRow) (w : Nat) :
    (diffVals l w).sum = (scoredVals l w).sum - (allowedVals l w).sum := by
  induction l with
  | nil => rfl
  | cons m t ih =>
    simp only [diffVals, scoredVals, allowedVals, List.filterMap_cons] at *
    rcases h1 : m.wrestler1_score with _ | s1
    · simp [scoredVal, diffVal, allowedVal, h1, ih]
    rcases h2 : m.wrestler2_score with _ | s2
    · simp [scoredVal, diffVal, allowedVal, h1, h2, ih]
    by_cases hw : m.wrestler1_id = w <;>
      simp [scoredVal, diffVal, allowedVal, h1, h2, hw, ih] <;> ring

/-- One scored value per fully-scored match. -/
theorem length_scoredVals_eq_fullyScored (l : List MatchRow) (w : Nat) :
    (scoredVals l w).length = (fullyScored l).length := by
  induction l with
  | nil => rfl
  | cons m t ih =>
    simp only [scoredVals, fullyScored, List.filterMap_cons, List.filter_cons] at *
    rcases h1 : m.wrestler1_score with _ | s1
    · simp [scoredVal, h1, ih]
    rcases h2 : m.wrestler2_score with _ | s2
    · simp [scoredVal, h1, h2, ih]
    by_cases hw : m.wrestler1_id = w <;>
      simp [scoredVal, h1, h2, hw, ih]

/-- Filtering to fully-scored matches first does not change the collected
scored values. -/
theorem scoredVals_fullyScored (l : List MatchRow) (w : Nat) :
    scoredVals (fullyScored l) w = scoredVals l w := by
  induction l with
  | nil => rfl
  | cons m t ih =>
    simp only [scoredVals, fullyScored, List.filterMap_cons, List.filter_cons] at *
    rcases h1 : m.wrestler1_score with _ | s1
    · simp [scoredVal, h1, ih]
    rcases h2 : m.wrestler2_score with _ | s2
    · simp [scoredVal, h1, h2, ih]
    by_cases hw : m.wrestler1_id = w <;>
      simp [scoredVal, h1, h2, hw, ih, List.filterMap_cons]

/-- Filtering to fully-scored matches first does not change the collected
allowed values. -/
theorem allowedVals_fullyScored (l : List MatchRow) (w : Nat) :
    allowedVals (fullyScored l) w = allowedVals l w := by
  induction l with
  | nil => rfl
  | cons m t ih =>
    simp only [allowedVals, fullyScored, List.filterMap_cons, List.filter_cons] at *
    rcases h1 : m.wrestler1_score with _ | s1
    · simp [allowedVal, h1, ih]
    rcases h2 : m.wrestler2_score with _ | s2
    · simp [allowedVal, h1, h2, ih]
    by_cases hw : m.wrestler1_id = w <;>
      simp [allowedVal, h1, h2, hw, ih, List.filterMap_cons]

/-- Filtering to fully-scored matches first does not change the collected
differentials. -/
theorem diffVals_fullyScored (l : List MatchRow) (w : Nat) :
    diffVals (fullyScored l) w = diffVals l w := by
  induction l with
  | nil => rfl
  | cons m t ih =>
    simp only [diffVals, fullyScored, List.filterMap_cons, List.filter_cons] at *
    rcases h1 : m.wrestler1_score with _ | s1
    · simp [diffVal, h1, ih]
    rcases h2 : m.wrestler2_score with _ | s2
    · simp [diffVal, h1, h2, ih]
    by_cases hw : m.wrestler1_id = w <;>
      simp [diffVal, h1, h2, hw, ih, List.filterMap_cons]

/-- An aggregate over a list whose fully-scored subset is empty is 0. -/
theorem scoredVals_eq_nil_of_fullyScored_nil (l : List MatchRow) (w : Nat)
    (h : fullyScored l = []) : scoredVals l w = [] := by
  have := length_scoredVals_eq_fullyScored l w
  rw [h] at this
  exact List.length_eq_zero.mp this

/-- C4 core: over a non-empty fully-scored subset, the differential average
splits into averages of points scored and allowed. -/
theorem avg_point_diff_split (matches' : List MatchRow) (wid : Nat)
    (h : fullyScored matches' ≠ []) :
    calculate_avg_point_diff matches' wid =
      calculate_avg_points_scored matches' wid -
        calculate_avg_points_allowed matches' wid := by
  have hm : matches' ≠ [] := by
    intro he
    exact h (by simp [he, fullyScored])
  have hn : (fullyScored matches').length ≠ 0 := by
    simpa [List.length_eq_zero] using h
  have hls : (scoredVals matches' wid).length = (fullyScored matches').length :=
    length_scoredVals_eq_fullyScored matches' wid
  have hla : (allowedVals matches' wid).length = (fullyScored matches').length := by
    rw [← length_scoredVals_eq_allowed, hls]
  have hld : (diffVals matches' wid).length = (fullyScored matches').length := by
    rw [length_diffVals_eq_scored, hls]
  have hsne : scoredVals matches' wid ≠ [] := by
    intro he; apply hn; rw [← hls, he]; rfl
  have hane : allowedVals matches' wid ≠ [] := by
    intro he; apply hn; rw [← hla, he]; rfl
  have hdne : diffVals matches' wid ≠ [] := by
    intro he; apply hn; rw [← hld, he]; rfl
  simp only [calculate_avg_point_diff, calculate_avg_points_scored,
    calculate_avg_points_allowed, if_neg hm, listMean, List.map_eq_nil_iff,
    if_neg hsne, if_neg hane, if_neg hdne, List.length_map]
  rw [← Int.cast_list_sum, ← Int.cast_list_sum, ← Int.cast_list_sum,
    sum_diffVals, hls, hla, hld]
  push_cast
  rw [sub_div]

/-- C4: for every match list and competitor id whose fully-scored subset
(matches with both scores present) is non-empty, the average point
differential equals average points scored minus average points allowed. -/
theorem C4_avg_point_diff_eq_scored_sub_allowed (matches' : List MatchRow)
    (wid : Nat) (h : fullyScored matches' ≠ []) :
    calculate_avg_point_diff matches' wid =
      calculate_avg_points_scored matches' wid -
        calculate_avg_points_allowed matches' wid :=
  avg_point_diff_split matches' wid h

/-- Witness for C4 at the spec's scoring example. -/
theorem C4_avg_point_diff_witness :
    calculate_avg_point_diff exC5 1 =
      calculate_avg_points_scored exC5 1 - calculate_avg_points_allowed exC5 1 :=
  C4_avg_point_diff_eq_scored_sub_allowed exC5 1 (by decide)

/-- No allowed values are collected when no match is fully scored. -/
theorem allowedVals_eq_nil_of_fullyScored_nil (l : List MatchRow) (w : Nat)
    (h : fullyScored l = []) : allowedVals l w = [] := by
  have hlen := length_scoredVals_eq_allowed l w
  rw [scoredVals_eq_nil_of_fullyScored_nil l w h] at hlen
  exact List.length_eq_zero.mp hlen.symm

/-- No differentials are collected when no match is fully scored. -/
theorem diffVals_eq_nil_of_fullyScored_nil (l : List MatchRow) (w : Nat)
    (h : fullyScored l = []) : diffVals l w = [] := by
  have hlen := length_diffVals_eq_scored l w
  rw [scoredVals_eq_nil_of_fullyScored_nil l w h] at hlen
  exact List.length_eq_zero.mp hlen

/-- Average points scored ignores the non-fully-scored records entirely. -/
theorem avg_scored_eq_fullyScored (l : List MatchRow) (w : Nat) :
    calculate_avg_points_scored l w =
      calculate_avg_points_scored (fullyScored l) w := by
  by_cases hl : l = []
  · subst hl; rfl
  · by_cases hf : fullyScored l = []
    · have hs := scoredVals_eq_nil_of_fullyScored_nil l w hf
      simp [calculate_avg_points_scored, hl, hf, hs, listMean]
    · simp only [calculate_avg_points_scored, if_neg hl, if_neg hf,
        scoredVals_fullyScored]

/-- Average points allowed ignores the non-fully-scored records entirely. -/
theorem avg_allowed_eq_fullyScored (l : List MatchRow) (w : Nat) :
    calculate_avg_points_allowed l w =
      calculate_avg_points_allowed (fullyScored l) w := by
  by_cases hl : l = []
  · subst hl; rfl
  · by_cases hf : fullyScored l = []
    · have hs := allowedVals_eq_nil_of_fullyScored_nil l w hf
      simp [calculate_avg_points_allowed, hl, hf, hs, listMean]
    · simp only [calculate_avg_points_allowed, if_neg hl, if_neg hf,
        allowedVals_fullyScored]

/-- Average point differential ignores the non-fully-scored records. -/
theorem avg_diff_eq_fullyScored (l : List MatchRow) (w : Nat) :
    calculate_avg_point_diff l w =
      calculate_avg_point_diff (fullyScored l) w := by
  by_cases hl : l = []
  · subst hl; rfl
  · by_cases hf : fullyScored l = []
    · have hs := diffVals_eq_nil_of_fullyScored_nil l w hf
      simp [calculate_avg_point_diff, hl, hf, hs, listMean]
    · simp only [calculate_avg_point_diff, if_neg hl, if_neg hf,
        diffVals_fullyScored]

/-- A list all of whose records miss a score has no fully-scored records. -/
theorem fullyScored_nil_of_all_missing (l : List MatchRow)
    (h : ∀ m ∈ l, m.wrestler1_score = none ∨ m.wrestler2_score = none) :
    fullyScored l = [] := by
  apply List.filter_eq_nil.mpr
  intro m hm
  rcases h m hm with hs | hs <;> simp [hs]

/-- C5: records with either score missing are excluded from both the
numerator and the denominator of all scoring aggregates; the spec's example
(10,5),(None,None),(8,6) averages points scored to 9 with denominator 2;
empty and all-missing inputs give 0. -/
theorem C5_missing_scores_excluded (matches' : List MatchRow) (wid : Nat) :
    (calculate_avg_points_scored matches' wid =
        calculate_avg_points_scored (fullyScored matches') wid ∧
      calculate_avg_points_allowed matches' wid =
        calculate_avg_points_allowed (fullyScored matches') wid ∧
      calculate_avg_point_diff matches' wid =
        calculate_avg_point_diff (fullyScored matches') wid) ∧
    ((∀ m ∈ matches', m.wrestler1_score = none ∨ m.wrestler2_score = none) →
      calculate_avg_points_scored matches' wid = 0 ∧
      calculate_avg_points_allowed matches' wid = 0 ∧
      calculate_avg_point_diff matches' wid = 0) ∧
    (calculate_avg_points_scored exC5 1 = 9 ∧ (scoredVals exC5 1).length = 2 ∧
      calculate_avg_points_scored [] 1 = 0 ∧
      calculate_avg_points_scored exAllMissing 1 = 0) := by
  refine ⟨⟨avg_scored_eq_fullyScored _ _, avg_allowed_eq_fullyScored _ _,
    avg_diff_eq_fullyScored _ _⟩, ?_,
    ⟨by simp [calculate_avg_points_scored, exC5, mkMatch, scoredVals, scoredVal,
        listMean]; norm_num,
      by decide, rfl, rfl⟩⟩
  intro hmiss
  have hf := fullyScored_nil_of_all_missing matches' hmiss
  refine ⟨?_, ?_, ?_⟩
  · rw [avg_scored_eq_fullyScored, hf]; rfl
  · rw [avg_allowed_eq_fullyScored, hf]; rfl
  · rw [avg_diff_eq_fullyScored, hf]; rfl

/-- Witness for C5 at a one-element all-missing list. -/
theorem C5_missing_scores_witness :
    calculate_avg_points_scored exAllMissing 1 = 0 ∧
    calculate_avg_points_allowed exAllMissing 1 = 0 ∧
    calculate_avg_point_diff exAllMissing 1 = 0 :=
  (C5_missing_scores_excluded exAllMissing 1).2.1 (by decide)

/-- Any single code string counts toward the bonus set exactly when it
counts toward exactly one of the pin, technical-fall, major-decision sets. -/
theorem bonus_contains_split (s : String) :
    (if bonusCodes.contains s then (1 : Nat) else 0) =
      (if pinCodes.contains s then (1 : Nat) else 0) +
        (if techFallCodes.contains s then (1 : Nat) else 0) +
        (if majorDecisionCodes.contains s then (1 : Nat) else 0) := by
  by_cases h1 : s = "PIN"
  · subst h1; decide
  by_cases h2 : s = "FALL"
  · subst h2; decide
  by_cases h3 : s = "TF"
  · subst h3; decide
  by_cases h4 : s = "TECH"
  · subst h4; decide
  by_cases h5 : s = "MD"
  · subst h5; decide
  by_cases h6 : s = "MAJ"
  · subst h6; decide
  simp [bonusCodes, pinCodes, techFallCodes, majorDecisionCodes,
    List.contains, List.elem_eq_mem, h1, h2, h3, h4, h5, h6]

/-- The bonus-win count is the sum of the pin, technical-fall and
major-decision counts. -/
theorem countP_bonus_split (db : Db) (l : List MatchRow) :
    (l.countP fun m => bonusCodes.contains (resultCode db m.result_type_id).toUpper) =
      (l.countP fun m => pinCodes.contains (resultCode db m.result_type_id).toUpper) +
        (l.countP fun m => techFallCodes.contains (resultCode db m.result_type_id).toUpper) +
        (l.countP fun m => majorDecisionCodes.contains (resultCode db m.result_type_id).toUpper) := by
  induction l with
  | nil => rfl
  | cons m t ih =>
    simp only [List.countP_cons]
    have hs := bonus_contains_split (resultCode db m.result_type_id).toUpper
    omega

/-- C9: the bonus win rate equals the sum of the pin, technical-fall and
major-decision rates over the same inputs, since the bonus code set is the
disjoint union of the three per-type code sets and all four rates share the
win count as denominator. -/
theorem C9_bonus_rate_eq_sum_of_type_rates (db : Db) (matches' : List MatchRow)
    (wid : Nat) :
    calculate_bonus_win_rate db matches' wid =
      (get_result_type_rates db matches' wid).pin_rate +
        (get_result_type_rates db matches' wid).tech_fall_rate +
        (get_result_type_rates db matches' wid).major_decision_rate := by
  unfold calculate_bonus_win_rate get_result_type_rates
  by_cases hm : matches' = []
  · simp [hm]
  by_cases hw : winsOf matches' wid = []
  · simp [hm, hw]
  simp only [if_neg hm, if_neg hw]
  rw [countP_bonus_split db (winsOf matches' wid)]
  push_cast
  rw [add_div, add_div]

/-- C7: the dual-format, tournament-format and weight-class win-rate splits
return the neutral default 0.5 whenever their partition is empty (including
when the competitor has no matches at all), while the plain windowed
statistics return 0.0 on empty input. -/
theorem C7_split_defaults (db : Db) (wid wcid : Nat) (season_id : Option Nat) :
    (dualPartition db wid season_id = [] →
      (get_dual_tournament_stats db wid season_id).dual_meet_win_rate = 1 / 2) ∧
    (tournamentPartition db wid season_id = [] →
      (get_dual_tournament_stats db wid season_id).tournament_win_rate = 1 / 2) ∧
    (weightClassMatches db wid wcid season_id = [] →
      (get_weight_class_stats db wid wcid season_id).weight_class_win_rate = 1 / 2) ∧
    (∀ w : Nat, calculate_win_rate [] w = 0 ∧
      calculate_avg_points_scored [] w = 0 ∧
      calculate_avg_points_allowed [] w = 0 ∧
      calculate_avg_point_diff [] w = 0 ∧
      calculate_close_match_win_rate [] w = 0) := by
  refine ⟨?_, ?_, ?_, fun w => ⟨rfl, rfl, rfl, rfl, rfl⟩⟩
  · intro h
    unfold get_dual_tournament_stats
    by_cases hall : wrestlerMatches db wid season_id = []
    · simp [hall]
    · simp [hall, h]
  · intro h
    unfold get_dual_tournament_stats
    by_cases hall : wrestlerMatches db wid season_id = []
    · simp [hall]
    · simp [hall, h]
  · intro h
    unfold get_weight_class_stats
    simp [h]

/-- Witness for C7 on the empty database. -/
theorem C7_split_defaults_witness :
    (get_dual_tournament_stats dbEmpty 1 none).dual_meet_win_rate = 1 / 2 ∧
    (get_dual_tournament_stats dbEmpty 1 none).tournament_win_rate = 1 / 2 ∧
    (get_weight_class_stats dbEmpty 1 1 none).weight_class_win_rate = 1 / 2 ∧
    calculate_win_rate [] 1 = 0 :=
  ⟨(C7_split_defaults dbEmpty 1 1 none).1 (by decide),
   (C7_split_defaults dbEmpty 1 1 none).2.1 (by decide),
   (C7_split_defaults dbEmpty 1 1 none).2.2.1 (by decide),
   ((C7_split_defaults dbEmpty 1 1 none).2.2.2 1).1⟩

/-- C10: on exactly equal probabilities the endpoint names wrestler 2 as the
predicted winner (the comparison for wrestler 1 is strict) with confidence
the shared probability; otherwise the winner is the side with the larger
probability and confidence is that maximum. -/
theorem C10_tie_goes_to_wrestler2 (w1 w2 : Nat) (p1 p2 : ℚ) :
    (p1 = p2 → predictedWinnerId w1 w2 p1 p2 = w2 ∧
      predictionConfidence p1 p2 = p1) ∧
    (p2 < p1 → predictedWinnerId w1 w2 p1 p2 = w1 ∧
      predictionConfidence p1 p2 = p1) ∧
    (p1 < p2 → predictedWinnerId w1 w2 p1 p2 = w2 ∧
      predictionConfidence p1 p2 = p2) := by
  unfold predictedWinnerId predictionConfidence
  refine ⟨?_, ?_, ?_⟩
  · intro h
    subst h
    simp
  · intro h
    rw [if_pos h, max_eq_left h.le]
    exact ⟨rfl, rfl⟩
  · intro h
    rw [if_neg (not_lt.mpr h.le), max_eq_right h.le]
    exact ⟨rfl, rfl⟩

/-- Witness for C10 at a tie, a wrestler-1 edge and a wrestler-2 edge. -/
theorem C10_tie_witness :
    (predictedWinnerId 1 2 (1 / 2) (1 / 2) = 2 ∧
      predictionConfidence (1 / 2) (1 / 2) = 1 / 2) ∧
    (predictedWinnerId 1 2 (2 / 3) (1 / 3) = 1 ∧
      predictionConfidence (2 / 3) (1 / 3) = 2 / 3) ∧
    (predictedWinnerId 1 2 (1 / 3) (2 / 3) = 2 ∧
      predictionConfidence (1 / 3) (2 / 3) = 2 / 3) :=
  ⟨(C10_tie_goes_to_wrestler2 1 2 (1 / 2) (1 / 2)).1 rfl,
   (C10_tie_goes_to_wrestler2 1 2 (2 / 3) (1 / 3)).2.1 (by norm_num),
   (C10_tie_goes_to_wrestler2 1 2 (1 / 3) (2 / 3)).2.2 (by norm_num)⟩

/-- C8: predict returns a probability pair summing to 1 on both model code
paths — given that a probability-exposing model's two class probabilities
sum to 1 (the classifier contract), and unconditionally for scalar-only
models where the pair is (p, 1 - p). -/
theorem C8_predict_pair_sums_to_one (m : Model) (fs : FeatureMap)
    (hm : ∀ f, m = Model.proba f → ∀ x, (f x).1 + (f x).2 = 1) :
    ∀ pr, predict m fs = Except.ok pr → pr.1 + pr.2 = 1 := by
  intro pr h
  unfold predict at h
  rcases hpf : prepare_features fs with e | x <;> rw [hpf] at h
  · exact Except.noConfusion h
  · have hpr : pr = predictPair m x := by
      cases h
      rfl
    subst hpr
    cases m with
    | proba f =>
      have hsum := hm f rfl x
      simp only [predictPair]
      linarith
    | point f =>
      simp only [predictPair]
      ring

/-- Witness for C8: a scalar-only model and a probability model. -/
theorem C8_predict_pair_witness :
    (((3 : ℚ) / 4, 1 - (3 : ℚ) / 4).1 + ((3 : ℚ) / 4, 1 - (3 : ℚ) / 4).2 = 1) ∧
    (((2 : ℚ) / 3, (1 : ℚ) / 3).1 + ((2 : ℚ) / 3, (1 : ℚ) / 3).2 = 1) :=
  ⟨C8_predict_pair_sums_to_one (Model.point fun _ => 3 / 4) exampleFullFeatureMap
      (fun f h => Model.noConfusion h) ((3 : ℚ) / 4, 1 - (3 : ℚ) / 4) rfl,
   C8_predict_pair_sums_to_one (Model.proba fun _ => (1 / 3, 2 / 3))
      exampleFullFeatureMap
      (fun f h x => by cases h; norm_num) ((2 : ℚ) / 3, (1 : ℚ) / 3) rfl⟩

/-- When every requested name is present, the binder loop succeeds and
returns the looked-up values in request order. -/
theorem bindFeatures_ok (names : List String) (fs : FeatureMap)
    (h : ∀ n ∈ names, (fs.lookup n).isSome) :
    bindFeatures names fs =
      Except.ok (names.map fun n => (fs.lookup n).getD 0) := by
  induction names with
  | nil => rfl
  | cons n rest ih =>
    have hn := h n (List.mem_cons_self n rest)
    rcases hsome : fs.lookup n with _ | v
    · rw [hsome] at hn
      simp at hn
    · have hrest := ih fun x hx => h x (List.mem_cons_of_mem n hx)
      simp [bindFeatures, hsome, hrest]

/-- When some requested name is absent, the binder loop fails with an error
naming an absent key (the first one in request order). -/
theorem bindFeatures_missing (names : List String) (fs : FeatureMap)
    (h : ∃ n ∈ names, fs.lookup n = none) :
    ∃ k ∈ names, fs.lookup k = none ∧
      bindFeatures names fs = Except.error ("Missing feature: " ++ k) := by
  induction names with
  | nil => simp at h
  | cons n rest ih =>
    rcases hsome : fs.lookup n with _ | v
    · exact ⟨n, List.mem_cons_self n rest, hsome, by simp [bindFeatures, hsome]⟩
    · have hrest : ∃ x ∈ rest, fs.lookup x = none := by
        rcases h with ⟨k, hk, hnone⟩
        rcases List.mem_cons.mp hk with rfl | hk'
        · rw [hsome] at hnone
          cases hnone
        · exact ⟨k, hk', hnone⟩
      rcases ih hrest with ⟨k, hk, hnone, heq⟩
      exact ⟨k, List.mem_cons_of_mem n hk, hnone, by simp [bindFeatures, hsome, heq]⟩

/-- C1: binding a feature dict to the model vector raises an error naming an
absent contract key when one is missing; otherwise it returns a vector of
the contract's length whose i-th entry is the dict's value for the i-th
contract name. -/
theorem C1_prepare_features_contract (fs : FeatureMap) :
    ((∃ n ∈ feature_names, fs.lookup n = none) →
      ∃ k ∈ feature_names, fs.lookup k = none ∧
        prepare_features fs = Except.error ("Missing feature: " ++ k)) ∧
    ((∀ n ∈ feature_names, (fs.lookup n).isSome) →
      ∃ v, prepare_features fs = Except.ok v ∧ v.length = feature_names.length ∧
        ∀ i (hi : i < feature_names.length) (hv : i < v.length),
          fs.lookup (feature_names.get ⟨i, hi⟩) = some (v.get ⟨i, hv⟩)) := by
  constructor
  · intro h
    exact bindFeatures_missing feature_names fs h
  · intro h
    refine ⟨feature_names.map fun n => (fs.lookup n).getD 0,
      bindFeatures_ok feature_names fs h, List.length_map _ _, ?_⟩
    intro i hi hv
    have hget : (feature_names.map fun n => (fs.lookup n).getD 0).get ⟨i, hv⟩ =
        (fs.lookup (feature_names.get ⟨i, hi⟩)).getD 0 := by
      simp [List.get_eq_getElem, List.getElem_map]
    rw [hget]
    have hsome := h (feature_names.get ⟨i, hi⟩) (List.get_mem _ _ hi)
    rcases hx : fs.lookup (feature_names.get ⟨i, hi⟩) with _ | q
    · rw [hx] at hsome
      simp at hsome
    · simp

/-- Witness for C1: a dict missing a contract name errors naming it; a dict
holding every contract name binds to a full-length vector. -/
theorem C1_prepare_features_witness :
    (∃ k ∈ feature_names, FeatureMap.lookup exampleMissingFeatureMap k = none ∧
      prepare_features exampleMissingFeatureMap =
        Except.error ("Missing feature: " ++ k)) ∧
    (∃ v, prepare_features exampleFullFeatureMap = Except.ok v ∧
      v.length = feature_names.length ∧
      ∀ i (hi : i < feature_names.length) (hv : i < v.length),
        FeatureMap.lookup exampleFullFeatureMap (feature_names.get ⟨i, hi⟩) =
          some (v.get ⟨i, hv⟩)) :=
  ⟨(C1_prepare_features_contract exampleMissingFeatureMap).1
      ⟨"career_losses", by decide, by decide⟩,
   (C1_prepare_features_contract exampleFullFeatureMap).2 (by decide)⟩

/-- Inserting into the date-sorted list adds one element. -/
theorem length_insertByDateDesc (m : MatchRow) (l : List MatchRow) :
    (insertByDateDesc m l).length = l.length + 1 := by
  induction l with
  | nil => rfl
  | cons x xs ih =>
    unfold insertByDateDesc
    split
    · rfl
    · simp [ih]

/-- Sorting by date preserves length. -/
theorem length_sortByDateDesc (l : List MatchRow) :
    (sortByDateDesc l).length = l.length := by
  induction l with
  | nil => rfl
  | cons m t ih => simp [sortByDateDesc, length_insertByDateDesc, ih]

/-- The initial same-outcome run is no longer than the list. -/
theorem runLength_le (wid : Nat) (b : Bool) (l : List MatchRow) :
    runLength wid b l ≤ l.length := by
  induction l with
  | nil => simp [runLength]
  | cons m t ih =>
    unfold runLength
    split
    · simp only [List.length_cons]
      omega
    · simp

/-- C2 (amended): for a non-empty scanned block, the streak is strictly
positive exactly when the wrestler won the OLDEST match of the ≤ 20
most-recent block (the first element of the reversed block) and strictly
negative exactly when they lost it — not the most recent match — and its
magnitude never exceeds the number of the wrestler's matches. -/
theorem C2_streak_sign_and_bound (db : Db) (wid : Nat) (season_id : Option Nat)
    (m0 : MatchRow) (rest : List MatchRow)
    (h : (streakMatches db wid season_id).reverse = m0 :: rest) :
    (0 < calculate_streak db wid season_id ↔ m0.winner_id = wid) ∧
    (calculate_streak db wid season_id < 0 ↔ ¬ (m0.winner_id = wid)) ∧
    (calculate_streak db wid season_id).natAbs ≤
      (wrestlerMatches db wid season_id).length := by
  have hlen : rest.length + 1 = (streakMatches db wid season_id).length := by
    rw [← List.length_reverse (streakMatches db wid season_id), h]
    rfl
  have hsm : (streakMatches db wid season_id).length ≤
      (wrestlerMatches db wid season_id).length := by
    unfold streakMatches
    calc (List.take 20 (sortByDateDesc (wrestlerMatches db wid season_id))).length
        ≤ (sortByDateDesc (wrestlerMatches db wid season_id)).length := by
          rw [List.length_take]
          exact min_le_right _ _
      _ = (wrestlerMatches db wid season_id).length := length_sortByDateDesc _
  unfold calculate_streak
  rw [h]
  by_cases hw : m0.winner_id = wid
  · have hb : decide (m0.winner_id = wid) = true := decide_eq_true hw
    simp only [hb, if_pos]
    have hr := runLength_le wid true rest
    refine ⟨⟨fun _ => hw, fun _ => by omega⟩, ⟨?_, fun hne => absurd hw hne⟩, ?_⟩
    · intro hneg
      exfalso
      have : ((1 + runLength wid true rest : Nat) : Int) < 0 := hneg
      omega
    · rw [Int.natAbs_ofNat]
      omega
  · have hb : decide (m0.winner_id = wid) = false := decide_eq_false hw
    simp only [hb, if_neg, Bool.false_eq_true, not_false_eq_true]
    have hr := runLength_le wid false rest
    refine ⟨⟨?_, fun hww => absurd hww hw⟩, ⟨fun _ => hw, fun _ => ?_⟩, ?_⟩
    · intro hpos
      exfalso
      have : (0 : Int) < -((1 + runLength wid false rest : Nat) : Int) := hpos
      omega
    · have : -((1 + runLength wid false rest : Nat) : Int) < 0 := by omega
      exact this
    · rw [Int.natAbs_neg, Int.natAbs_ofNat]
      omega

/-- Counterexample to C2 as stated: in `dbC2` wrestler 1 lost the most
recent match, yet the streak is positive (+1), because the loop walks from
the oldest match of the recent block. -/
theorem C2_streak_counterexample :
    0 < calculate_streak dbC2 1 none ∧
    (sortByDateDesc (wrestlerMatches dbC2 1 none)).head?.map MatchRow.winner_id =
      some 2 ∧
    wrestlerMatches dbC2 1 none ≠ [] := by
  decide

/-- Witness for the amended C2: `dbC2`'s block starts with a won match
(positive streak), `dbC2L`'s with a lost match (negative streak). -/
theorem C2_streak_witness :
    ((0 < calculate_streak dbC2 1 none ↔ m1C2.winner_id = 1) ∧
      (calculate_streak dbC2 1 none < 0 ↔ ¬ (m1C2.winner_id = 1)) ∧
      (calculate_streak dbC2 1 none).natAbs ≤
        (wrestlerMatches dbC2 1 none).length) ∧
    ((0 < calculate_streak dbC2L 1 none ↔ m1C2L.winner_id = 1) ∧
      (calculate_streak dbC2L 1 none < 0 ↔ ¬ (m1C2L.winner_id = 1)) ∧
      (calculate_streak dbC2L 1 none).natAbs ≤
        (wrestlerMatches dbC2L 1 none).length) :=
  ⟨C2_streak_sign_and_bound dbC2 1 none m1C2 [m2C2] (by decide),
   C2_streak_sign_and_bound dbC2L 1 none m1C2L [m2C2L] (by decide)⟩

/-- Looking up a key that no prefixed entry can produce skips the whole
prefixed block. -/
theorem lookup_map_prefixed (pre k : String) (hk : ∀ s, ¬ (k = pre ++ s))
    (l rest : List (String × ℚ)) :
    List.lookup k ((l.map fun p => (pre ++ p.1, p.2)) ++ rest) =
      List.lookup k rest := by
  induction l with
  | nil => rfl
  | cons p t ih =>
    have hb : (k == pre ++ p.1) = false := beq_eq_false_iff_ne.mpr (hk p.1)
    simp [List.lookup, hb, ih]

/-- No "w1_"-prefixed key is the head-to-head win-rate key. -/
theorem h2h_key_not_w1_prefixed (s : String) : ¬ ("h2h_win_rate" = "w1_" ++ s) := by
  intro h
  have hd := congrArg String.data h
  rw [String.data_append] at hd
  rw [show ("h2h_win_rate" : String).data =
      ['h', '2', 'h', '_', 'w', 'i', 'n', '_', 'r', 'a', 't', 'e'] from rfl,
    show ("w1_" : String).data = ['w', '1', '_'] from rfl] at hd
  simp at hd

/-- No "w2_"-prefixed key is the head-to-head win-rate key. -/
theorem h2h_key_not_w2_prefixed (s : String) : ¬ ("h2h_win_rate" = "w2_" ++ s) := by
  intro h
  have hd := congrArg String.data h
  rw [String.data_append] at hd
  rw [show ("h2h_win_rate" : String).data =
      ['h', '2', 'h', '_', 'w', 'i', 'n', '_', 'r', 'a', 't', 'e'] from rfl,
    show ("w2_" : String).data = ['w', '2', '_'] from rfl] at hd
  simp at hd

/-- C6: the head-to-head win-rate feature emitted by the pairwise composer
equals 0.5 exactly when the two wrestlers have no head-to-head matches, and
wins_a / total otherwise. -/
theorem C6_h2h_win_rate_default (db : Db) (w1 w2 : Nat)
    (season_id weight_class_id : Option Nat) (ref : RefDate) :
    FeatureMap.lookup
        (compute_features_for_prediction db w1 w2 season_id weight_class_id ref)
        ("h2h_win_rate") = some (h2hWinRate db w1 w2) ∧
    ((get_h2h_stats db w1 w2).1 = 0 → h2hWinRate db w1 w2 = 1 / 2) ∧
    (0 < (get_h2h_stats db w1 w2).1 →
      h2hWinRate db w1 w2 =
        ((get_h2h_stats db w1 w2).2.1 : ℚ) / (get_h2h_stats db w1 w2).1) := by
  refine ⟨?_, ?_, ?_⟩
  · show List.lookup "h2h_win_rate"
        (compute_features_for_prediction db w1 w2 season_id weight_class_id ref) = _
    unfold compute_features_for_prediction
    dsimp only
    rw [List.append_assoc]
    rw [lookup_map_prefixed "w1_" "h2h_win_rate" h2h_key_not_w1_prefixed,
      lookup_map_prefixed "w2_" "h2h_win_rate" h2h_key_not_w2_prefixed]
    simp [List.lookup]
  · intro h
    simp [h2hWinRate, h]
  · intro h
    simp only [h2hWinRate]
    rw [if_pos h]

/-- Witness for C6: no head-to-head history in the empty database gives 0.5;
two head-to-head matches split 1–1 in `dbC2` give 1/2 by division. -/
theorem C6_h2h_win_rate_witness :
    h2hWinRate dbEmpty 1 2 = 1 / 2 ∧
    h2hWinRate dbC2 1 2 =
      ((get_h2h_stats dbC2 1 2).2.1 : ℚ) / (get_h2h_stats dbC2 1 2).1 :=
  ⟨(C6_h2h_win_rate_default dbEmpty 1 2 none none refEx).2.1 (by decide),
   (C6_h2h_win_rate_default dbC2 1 2 none none refEx).2.2 (by decide)⟩

/-- A key occurring among a dict's keys has a successful lookup. -/
theorem lookup_isSome_of_mem_keys (l : List (String × ℚ)) (k : String)
    (h : k ∈ l.map Prod.fst) : (List.lookup k l).isSome := by
  induction l with
  | nil => simp at h
  | cons p t ih =>
    rw [List.map_cons, List.mem_cons] at h
    rcases h with h1 | h2
    · simp [List.lookup, h1]
    · by_cases hk : k = p.1
      · simp [List.lookup, hk]
      · have hb : (k == p.1) = false := beq_eq_false_iff_ne.mpr hk
        simp only [List.lookup, hb]
        exact ih h2

/-- The single-wrestler feature dict's keys are exactly the model contract,
in order. -/
theorem keys_compute_wrestler_features (db : Db) (wid : Nat)
    (season_id weight_class_id : Option Nat) (ref : RefDate) :
    (compute_wrestler_features db wid season_id weight_class_id ref).map
        Prod.fst = feature_names := rfl

/-- C3 (amended): the feature dict the prediction endpoint binds into the
model's input vector is wrestler 1's single-wrestler feature dict, not the
pairwise composed feature set; that dict carries every contract name, so
binding succeeds with a full-length vector. -/
theorem C3_endpoint_binds_w1_features (db : Db) (w1 w2 : Nat)
    (season_id weight_class_id : Option Nat) (ref : RefDate) :
    predictMatchBoundFeatures db w1 w2 season_id weight_class_id ref =
      compute_wrestler_features db w1 season_id weight_class_id ref ∧
    ∃ v, prepare_features
          (predictMatchBoundFeatures db w1 w2 season_id weight_class_id ref) =
        Except.ok v ∧ v.length = feature_names.length := by
  refine ⟨rfl, ?_⟩
  have hall : ∀ n ∈ feature_names,
      (FeatureMap.lookup
        (predictMatchBoundFeatures db w1 w2 season_id weight_class_id ref)
        n).isSome := by
    intro n hn
    apply lookup_isSome_of_mem_keys
    rw [show (predictMatchBoundFeatures db w1 w2 season_id weight_class_id
        ref).map Prod.fst = feature_names from
      keys_compute_wrestler_features db w1 season_id weight_class_id ref]
    exact hn
  exact ⟨_, bindFeatures_ok feature_names _ hall, List.length_map _ _⟩

/-- Counterexample to C3 as stated: on the empty database the dict the
endpoint binds has no "h2h_matches" entry, while the pairwise composed set
does; binding the composed set would fail on the first contract name. -/
theorem C3_endpoint_counterexample :
    FeatureMap.lookup (predictMatchBoundFeatures dbEmpty 1 2 none none refEx)
        ("h2h_matches") = none ∧
    FeatureMap.lookup
        (compute_features_for_prediction dbEmpty 1 2 none none refEx)
        ("h2h_matches") = some 0 ∧
    prepare_features (compute_features_for_prediction dbEmpty 1 2 none none refEx) =
      Except.error ("Missing feature: career_wins") := by
  refine ⟨by decide, ?_, by rfl⟩
  decide
